import Mathlib

/-
Verification of the sphere-surface ray-tracing core
(`src/sphere_surface.py`, self-contained variant, plus the
`tracer/sphere_surface.py` accessors it shares).

The Python code works over numpy float arrays; we embed it shallowly over ℝ.
A ray bundle is a list of (vertex, direction) pairs; the per-ray loop body of
`register_incoming` becomes the pure function `intersectRay`, and the numpy
`+infinity` / empty-placeholder sentinels for a miss become the `RayResult.miss`
constructor (so a cached parametric value is `Option ℝ` with `none` encoding
`+inf`, and cached point/normal columns are `Option Vec3` with `none` encoding
the `N.empty` placeholder column).
-/

namespace Tracer

/-- A 3-component real vector, one column of a numpy `(3, n)` array. -/
structure Vec3 where
  x : ℝ
  y : ℝ
  z : ℝ

namespace Vec3

instance : Add Vec3 := ⟨fun a b => ⟨a.x + b.x, a.y + b.y, a.z + b.z⟩⟩
instance : Sub Vec3 := ⟨fun a b => ⟨a.x - b.x, a.y - b.y, a.z - b.z⟩⟩
instance : SMul ℝ Vec3 := ⟨fun r a => ⟨r * a.x, r * a.y, r * a.z⟩⟩
instance : Neg Vec3 := ⟨fun a => ⟨-a.x, -a.y, -a.z⟩⟩

theorem add_def (a b : Vec3) : a + b = ⟨a.x + b.x, a.y + b.y, a.z + b.z⟩ := rfl
theorem sub_def (a b : Vec3) : a - b = ⟨a.x - b.x, a.y - b.y, a.z - b.z⟩ := rfl
theorem smul_def (r : ℝ) (a : Vec3) : r • a = ⟨r * a.x, r * a.y, r * a.z⟩ := rfl

end Vec3

/-- `(a*b).sum(axis=0)` for two columns: the Euclidean dot product,
also `N.vdot` for 3-vectors. -/
def dot3 (a b : Vec3) : ℝ := a.x * b.x + a.y * b.y + a.z * b.z

/-- `N.linalg.norm` of a 3-vector (Euclidean norm). -/
noncomputable def norm3 (a : Vec3) : ℝ := Real.sqrt (dot3 a a)

/-- `A = (d**2).sum(axis=0)` for one ray of direction `d`. -/
def quadA (d : Vec3) : ℝ := dot3 d d

/-- `B = 2*(d*(v - c[:,None])).sum(axis=0)` for one ray. -/
def quadB (c v d : Vec3) : ℝ := 2 * dot3 d (v - c)

/-- `C = ((v - c[:,None])**2).sum(axis=0) - radius**2` for one ray. -/
def quadC (c : Vec3) (rad : ℝ) (v : Vec3) : ℝ := dot3 (v - c) (v - c) - rad ^ 2

/-- `delta = B**2 - 4*A*C` for one ray. -/
def disc (c : Vec3) (rad : ℝ) (v d : Vec3) : ℝ :=
  quadB c v d ^ 2 - 4 * quadA d * quadC c rad v

/-- `hits[0] = (-B + (-1)*N.sqrt(delta))/(2*A)`: the root using the
`-1` entry of `N.r_[-1, 1]`. -/
noncomputable def hit0 (c : Vec3) (rad : ℝ) (v d : Vec3) : ℝ :=
  (-quadB c v d - Real.sqrt (disc c rad v d)) / (2 * quadA d)

/-- `hits[1] = (-B + 1*N.sqrt(delta))/(2*A)`: the root using the
`+1` entry of `N.r_[-1, 1]`. -/
noncomputable def hit1 (c : Vec3) (rad : ℝ) (v d : Vec3) : ℝ :=
  (-quadB c v d + Real.sqrt (disc c rad v d)) / (2 * quadA d)

/-- The value `hits[param]` selected by the source:
`param = N.argmin(hits)` when `len(is_positive) == 2` (numpy `argmin`
returns the first index on ties, hence `hit0` when `hit0 ≤ hit1`), and
`param = is_positive[0]` (the index of the unique positive root) otherwise. -/
noncomputable def selT (c : Vec3) (rad : ℝ) (v d : Vec3) : ℝ :=
  if 0 < hit0 c rad v d ∧ 0 < hit1 c rad v d then
    (if hit0 c rad v d ≤ hit1 c rad v d then hit0 c rad v d else hit1 c rad v d)
  else
    (if 0 < hit0 c rad v d then hit0 c rad v d else hit1 c rad v d)

/-- `coords[param,:] = vertex + d[:,ray]*hits[param]`: the candidate hit point. -/
noncomputable def selPoint (c : Vec3) (rad : ℝ) (v d : Vec3) : Vec3 :=
  v + selT c rad v d • d

/-- `dot = N.vdot(c - coords[param,:], d[:,ray])`. -/
noncomputable def selDot (c : Vec3) (rad : ℝ) (v d : Vec3) : ℝ :=
  dot3 (c - selPoint c rad v d) d

/-- `normal = (coords[param,:] - c) if dot <= 0 else (c - coords[param,:])`.
Note: the `src/` variant of `register_incoming` does not normalize this
vector (only the `tracer/` variant's `get_normal` divides by the norm). -/
noncomputable def selNormal (c : Vec3) (rad : ℝ) (v d : Vec3) : Vec3 :=
  if selDot c rad v d ≤ 0 then selPoint c rad v d - c else c - selPoint c rad v d

/-- Per-ray outcome of `register_incoming`: `miss` packages the
`params.append(N.inf)` / `vertices.append(N.empty([3,1]))` /
`norm.append(N.empty([3,1]))` sentinel triple, `hit` the recorded
parametric distance, hit point and normal. -/
inductive RayResult where
  | miss : RayResult
  | hit (t : ℝ) (point : Vec3) (normal : Vec3) : RayResult

/-- The parametric value the source appends to `params` for this ray:
`none` encodes the `N.inf` no-hit sentinel. -/
def RayResult.param : RayResult → Option ℝ
  | .miss => none
  | .hit t _ _ => some t

/-- The column the source appends to `vertices` for this ray:
`none` encodes the `N.empty([3,1])` placeholder. -/
def RayResult.point : RayResult → Option Vec3
  | .miss => none
  | .hit _ p _ => some p

/-- The column the source appends to `norm` for this ray:
`none` encodes the `N.empty([3,1])` placeholder. -/
def RayResult.normal : RayResult → Option Vec3
  | .miss => none
  | .hit _ _ n => some n

/-- The body of the `for ray in xrange(n)` loop of `register_incoming`:
 * `if delta[ray] < 0:` → miss;
 * `if N.shape(is_positive) == (0,):` (no root is `> 0`, i.e. both `≤ 0`) → miss;
 * otherwise the root `hits[param]` is selected (see `selT`), the candidate
   point and normal are formed, and `self._boundary.in_bounds(verts)` decides
   between recording the hit and recording the miss sentinel. -/
noncomputable def intersectRay (c : Vec3) (rad : ℝ) (inB : Vec3 → Bool)
    (v d : Vec3) : RayResult :=
  if disc c rad v d < 0 then .miss
  else if hit0 c rad v d ≤ 0 ∧ hit1 c rad v d ≤ 0 then .miss
  else if inB (selPoint c rad v d) then
    .hit (selT c rad v d) (selPoint c rad v d) (selNormal c rad v d)
  else .miss

/-- The ray-bundle collaborator, reduced to what the core reads:
`get_vertices()` column `v[:,ray]` and `get_directions()` column `d[:,ray]`
per ray; `get_num_rays()` is the list length. -/
structure RayBundle where
  rays : List (Vec3 × Vec3)

/-- `ray_bundle.get_num_rays()`. -/
def RayBundle.numRays (b : RayBundle) : ℕ := b.rays.length

/-- Python exceptions the embedded code can raise. Evaluating the undefined
name `ValuError` in `raise ValuError(...)` raises a `NameError` carrying the
undefined name. -/
inductive PyError where
  | valueError (msg : String)
  | nameError (undefinedName : String)
deriving DecidableEq

/-- `set_radius`: the source reads `if rad <= 0: raise ValuError("Radius must
be positive")`. `ValuError` is an undefined name (a typo of `ValueError`), so
the raise statement itself raises `NameError` at any non-positive radius;
otherwise `self._rad = rad` stores the radius unchanged. -/
noncomputable def set_radius (rad : ℝ) : Except PyError ℝ :=
  if rad ≤ 0 then .error (.nameError "ValuError")
  else .ok rad

/-- The sphere-surface instance state read by the ray-handling protocol:
`_center`, `_rad`, `_boundary` (as its `in_bounds` test on one column),
`_abs`, `_polar`, `_ref_index`. -/
structure SphereSurface where
  center : Vec3
  rad : ℝ
  boundary : Vec3 → Bool
  absorptivity : ℝ
  polar : String
  refIndex : ℝ

/-- `__init__`: the constructor calls `set_radius(radius)`, so a non-positive
radius aborts construction with the same error `set_radius` raises. -/
noncomputable def mkSphereSurface (center : Vec3) (absorptivity : ℝ)
    (polar : String) (n rad : ℝ) (boundary : Vec3 → Bool) :
    Except PyError SphereSurface :=
  match set_radius rad with
  | .error e => .error e
  | .ok r => .ok ⟨center, r, boundary, absorptivity, polar, n⟩

/-- `register_incoming`, geometric part: the per-ray loop producing, in bundle
order, one appended (param, vertex column, norm column) triple per ray. -/
noncomputable def register_incoming (s : SphereSurface) (b : RayBundle) :
    List RayResult :=
  b.rays.map (fun vd => intersectRay s.center s.rad s.boundary vd.1 vd.2)

/-- The mutable per-instance fields written at the end of `register_incoming`:
`self._vertices`, `self._norm` (the hstacked cache columns, recoverable from
the result list) and `self._current_bundle`. `none` means no bundle was
registered yet. -/
structure SurfaceState where
  surf : SphereSurface
  cache : Option (RayBundle × List RayResult)

/-- One full call of `register_incoming` on an instance. The loop appends one
(param, vertex column, norm column) triple per ray; then
`self._vertices = N.hstack(vertices)` runs. When the bundle is empty the
collected `vertices` list is empty and `N.hstack([])` raises
`ValueError("need at least one array to concatenate")` before any cache field
is assigned and before `return params` — nothing is returned and the instance
state is unchanged. Otherwise the cache is overwritten wholesale with the
fresh record set and the `params` list is returned (`none` = `N.inf`). -/
noncomputable def registerStep (st : SurfaceState) (b : RayBundle) :
    Except PyError (SurfaceState × List (Option ℝ)) :=
  let res := register_incoming st.surf b
  if res.isEmpty then
    .error (.valueError "need at least one array to concatenate")
  else
    .ok (⟨st.surf, some (b, res)⟩, res.map RayResult.param)

/-- The outgoing ray bundle as read by this core: the ray count of the bundle
returned by `Optics.fresnel`, and the vertex columns after `set_vertices`
(`Option Vec3` columns, since the cached columns being copied may be the
`N.empty` placeholders of miss rays). -/
structure OutBundle where
  numRays : ℕ
  vertices : List (Option Vec3)

/-- `outg.set_vertices(...)`: overwrite the vertex array of the bundle. -/
def OutBundle.set_vertices (o : OutBundle) (vs : List (Option Vec3)) :
    OutBundle :=
  { o with vertices := vs }

/-- Number of `True` entries of a boolean selector array. -/
def countTrue (sel : List Bool) : ℕ := (sel.filter id).length

/-- Boolean-mask column selection `arr[:, selector]` over cached columns. -/
def selectCols (xs : List (Option Vec3)) (sel : List Bool) : List (Option Vec3) :=
  (xs.zip sel).filterMap (fun p => if p.2 then some p.1 else none)

/-- Modelled from the spec: the `Optics(...).fresnel(polar, absorptivity,
refractive index)` optical-response collaborator is not under `src/`; per the
spec it "returns a new ray bundle whose ray count is, by convention, twice the
number of selected rays (one reflected and one refracted ray per selected
incoming ray)". Its vertex array is about to be overwritten by `get_outgoing`,
so it is modelled as placeholder columns of the same doubled length. -/
def fresnel (bundle : RayBundle) (norms : List (Option Vec3)) (sel : List Bool)
    (polar : String) (absorptivity refIndex : ℝ) : OutBundle :=
  { numRays := 2 * countTrue sel
    vertices := List.replicate (2 * countTrue sel) none }

/-- `get_outgoing`: build the Fresnel output bundle from the registered bundle,
the cached normals and the selector, then overwrite its vertices with
`N.hstack((self._vertices[:,selector], self._vertices[:,selector]))`. -/
noncomputable def get_outgoing (s : SphereSurface) (bundle : RayBundle)
    (res : List RayResult) (sel : List Bool) : OutBundle :=
  let outg := fresnel bundle (res.map RayResult.normal) sel
    s.polar s.absorptivity s.refIndex
  outg.set_vertices
    (selectCols (res.map RayResult.point) sel ++
      selectCols (res.map RayResult.point) sel)

/- ### General lemmas about the quadratic roots and the selection -/

theorem hit0_isRoot (c : Vec3) (rad : ℝ) (v d : Vec3)
    (hA : quadA d ≠ 0) (hδ : 0 ≤ disc c rad v d) :
    quadA d * hit0 c rad v d ^ 2 + quadB c v d * hit0 c rad v d +
      quadC c rad v = 0 := by
  have hs : Real.sqrt (disc c rad v d) ^ 2 =
      quadB c v d ^ 2 - 4 * quadA d * quadC c rad v := Real.sq_sqrt hδ
  unfold hit0
  field_simp
  linear_combination (2 * quadA d ^ 2) * hs

theorem hit1_isRoot (c : Vec3) (rad : ℝ) (v d : Vec3)
    (hA : quadA d ≠ 0) (hδ : 0 ≤ disc c rad v d) :
    quadA d * hit1 c rad v d ^ 2 + quadB c v d * hit1 c rad v d +
      quadC c rad v = 0 := by
  have hs : Real.sqrt (disc c rad v d) ^ 2 =
      quadB c v d ^ 2 - 4 * quadA d * quadC c rad v := Real.sq_sqrt hδ
  unfold hit1
  field_simp
  linear_combination (2 * quadA d ^ 2) * hs

theorem hit0_le_hit1 (c : Vec3) (rad : ℝ) (v d : Vec3) (hA : 0 < quadA d) :
    hit0 c rad v d ≤ hit1 c rad v d := by
  have hs : 0 ≤ Real.sqrt (disc c rad v d) := Real.sqrt_nonneg _
  have h2A : (0:ℝ) < 2 * quadA d := by linarith
  unfold hit0 hit1
  exact (div_le_div_iff_of_pos_right h2A).mpr (by linarith)

theorem selT_eq_hit0_or_hit1 (c : Vec3) (rad : ℝ) (v d : Vec3) :
    selT c rad v d = hit0 c rad v d ∨ selT c rad v d = hit1 c rad v d := by
  unfold selT
  split_ifs <;> simp

theorem selT_pos (c : Vec3) (rad : ℝ) (v d : Vec3)
    (h : ¬(hit0 c rad v d ≤ 0 ∧ hit1 c rad v d ≤ 0)) : 0 < selT c rad v d := by
  unfold selT
  push_neg at h
  split_ifs with h1 h2 h3
  · exact h1.1
  · exact h1.2
  · exact h3
  · rcases lt_or_le 0 (hit0 c rad v d) with hp | hn
    · exact absurd hp h3
    · exact h hn

theorem intersectRay_hit_elim (c : Vec3) (rad : ℝ) (inB : Vec3 → Bool)
    (v d : Vec3) (t : ℝ) (p n : Vec3)
    (h : intersectRay c rad inB v d = .hit t p n) :
    0 ≤ disc c rad v d ∧ ¬(hit0 c rad v d ≤ 0 ∧ hit1 c rad v d ≤ 0) ∧
      t = selT c rad v d ∧ p = selPoint c rad v d ∧
      n = selNormal c rad v d ∧ inB (selPoint c rad v d) = true := by
  unfold intersectRay at h
  split_ifs at h with h1 h2 h3
  cases h
  exact ⟨le_of_not_lt h1, h2, rfl, rfl, rfl, h3⟩

theorem selDot_formula (c : Vec3) (rad : ℝ) (v d : Vec3) :
    selDot c rad v d = -(quadB c v d) / 2 - selT c rad v d * quadA d := by
  unfold selDot selPoint quadB quadA
  simp only [dot3, Vec3.sub_def, Vec3.add_def, Vec3.smul_def]
  ring

theorem selDot_eq_sqrt_disc (c : Vec3) (rad : ℝ) (v d : Vec3)
    (hA : quadA d ≠ 0) :
    selDot c rad v d = Real.sqrt (disc c rad v d) / 2 ∨
      selDot c rad v d = -(Real.sqrt (disc c rad v d)) / 2 := by
  rcases selT_eq_hit0_or_hit1 c rad v d with h | h
  · left
    rw [selDot_formula, h]
    unfold hit0
    field_simp
    ring
  · right
    rw [selDot_formula, h]
    unfold hit1
    field_simp
    ring

theorem normSq_of_root (c : Vec3) (rad : ℝ) (v d : Vec3) (t : ℝ)
    (h : quadA d * t ^ 2 + quadB c v d * t + quadC c rad v = 0) :
    dot3 (v + t • d - c) (v + t • d - c) = rad ^ 2 := by
  unfold quadA quadB quadC at h
  simp only [dot3, Vec3.sub_def, Vec3.add_def, Vec3.smul_def] at h ⊢
  nlinarith [h]

theorem normSq_selPoint (c : Vec3) (rad : ℝ) (v d : Vec3)
    (hA : quadA d ≠ 0) (hδ : 0 ≤ disc c rad v d) :
    dot3 (selPoint c rad v d - c) (selPoint c rad v d - c) = rad ^ 2 := by
  unfold selPoint
  rcases selT_eq_hit0_or_hit1 c rad v d with h | h <;> rw [h]
  · exact normSq_of_root c rad v d _ (hit0_isRoot c rad v d hA hδ)
  · exact normSq_of_root c rad v d _ (hit1_isRoot c rad v d hA hδ)

/- ### Concrete-scenario evaluations

Scenario 1: unit sphere centered at the origin, one ray of origin `(0,0,5)`
and direction `(0,0,-1)`, all-accepting boundary.
Scenario 2: same ray, radius 2.
Scenario 3: scenario 1 with an all-rejecting boundary. -/

theorem sqrt_four : Real.sqrt 4 = 2 := by
  rw [show (4:ℝ) = 2 ^ 2 by norm_num, Real.sqrt_sq (by norm_num : (0:ℝ) ≤ 2)]

theorem sqrt_sixteen : Real.sqrt 16 = 4 := by
  rw [show (16:ℝ) = 4 ^ 2 by norm_num, Real.sqrt_sq (by norm_num : (0:ℝ) ≤ 4)]

theorem s1_disc : disc ⟨0,0,0⟩ 1 ⟨0,0,5⟩ ⟨0,0,-1⟩ = 4 := by
  simp [disc, quadA, quadB, quadC, dot3, Vec3.sub_def]
  norm_num

theorem s1_hit0 : hit0 ⟨0,0,0⟩ 1 ⟨0,0,5⟩ ⟨0,0,-1⟩ = 4 := by
  rw [hit0, s1_disc, sqrt_four]
  simp [quadA, quadB, dot3, Vec3.sub_def]
  norm_num

theorem s1_hit1 : hit1 ⟨0,0,0⟩ 1 ⟨0,0,5⟩ ⟨0,0,-1⟩ = 6 := by
  rw [hit1, s1_disc, sqrt_four]
  simp [quadA, quadB, dot3, Vec3.sub_def]
  norm_num

theorem s1_selT : selT ⟨0,0,0⟩ 1 ⟨0,0,5⟩ ⟨0,0,-1⟩ = 4 := by
  rw [selT, s1_hit0, s1_hit1]
  norm_num

theorem s1_selPoint : selPoint ⟨0,0,0⟩ 1 ⟨0,0,5⟩ ⟨0,0,-1⟩ = ⟨0,0,1⟩ := by
  rw [selPoint, s1_selT]
  simp [Vec3.add_def, Vec3.smul_def, Vec3.mk.injEq]
  norm_num

theorem s1_selDot : selDot ⟨0,0,0⟩ 1 ⟨0,0,5⟩ ⟨0,0,-1⟩ = 1 := by
  rw [selDot, s1_selPoint]
  simp [dot3, Vec3.sub_def]

theorem s1_selNormal : selNormal ⟨0,0,0⟩ 1 ⟨0,0,5⟩ ⟨0,0,-1⟩ = ⟨0,0,-1⟩ := by
  rw [selNormal, s1_selDot, if_neg (by norm_num : ¬ (1:ℝ) ≤ 0), s1_selPoint]
  simp [Vec3.sub_def, Vec3.mk.injEq]

theorem s1_eval : intersectRay ⟨0,0,0⟩ 1 (fun _ => true) ⟨0,0,5⟩ ⟨0,0,-1⟩ =
    .hit 4 ⟨0,0,1⟩ ⟨0,0,-1⟩ := by
  rw [intersectRay, s1_disc, s1_hit0, s1_hit1, s1_selT, s1_selPoint, s1_selNormal]
  norm_num

theorem s2_disc : disc ⟨0,0,0⟩ 2 ⟨0,0,5⟩ ⟨0,0,-1⟩ = 16 := by
  simp [disc, quadA, quadB, quadC, dot3, Vec3.sub_def]
  norm_num

theorem s2_hit0 : hit0 ⟨0,0,0⟩ 2 ⟨0,0,5⟩ ⟨0,0,-1⟩ = 3 := by
  rw [hit0, s2_disc, sqrt_sixteen]
  simp [quadA, quadB, dot3, Vec3.sub_def]
  norm_num

theorem s2_hit1 : hit1 ⟨0,0,0⟩ 2 ⟨0,0,5⟩ ⟨0,0,-1⟩ = 7 := by
  rw [hit1, s2_disc, sqrt_sixteen]
  simp [quadA, quadB, dot3, Vec3.sub_def]
  norm_num

theorem s2_selT : selT ⟨0,0,0⟩ 2 ⟨0,0,5⟩ ⟨0,0,-1⟩ = 3 := by
  rw [selT, s2_hit0, s2_hit1]
  norm_num

theorem s2_selPoint : selPoint ⟨0,0,0⟩ 2 ⟨0,0,5⟩ ⟨0,0,-1⟩ = ⟨0,0,2⟩ := by
  rw [selPoint, s2_selT]
  simp [Vec3.add_def, Vec3.smul_def, Vec3.mk.injEq]
  norm_num

theorem s2_selDot : selDot ⟨0,0,0⟩ 2 ⟨0,0,5⟩ ⟨0,0,-1⟩ = 2 := by
  rw [selDot, s2_selPoint]
  simp [dot3, Vec3.sub_def]

theorem s2_selNormal : selNormal ⟨0,0,0⟩ 2 ⟨0,0,5⟩ ⟨0,0,-1⟩ = ⟨0,0,-2⟩ := by
  rw [selNormal, s2_selDot, if_neg (by norm_num : ¬ (2:ℝ) ≤ 0), s2_selPoint]
  simp [Vec3.sub_def, Vec3.mk.injEq]

theorem s2_eval : intersectRay ⟨0,0,0⟩ 2 (fun _ => true) ⟨0,0,5⟩ ⟨0,0,-1⟩ =
    .hit 3 ⟨0,0,2⟩ ⟨0,0,-2⟩ := by
  rw [intersectRay, s2_disc, s2_hit0, s2_hit1, s2_selT, s2_selPoint, s2_selNormal]
  norm_num

theorem s3_eval : intersectRay ⟨0,0,0⟩ 1 (fun _ => false) ⟨0,0,5⟩ ⟨0,0,-1⟩ =
    .miss := by
  rw [intersectRay, s1_disc, s1_hit0, s1_hit1]
  norm_num

theorem norm3_002 : norm3 ⟨0,0,-2⟩ = 2 := by
  have h4 : dot3 ⟨0,0,-2⟩ ⟨0,0,-2⟩ = 4 := by norm_num [dot3]
  rw [norm3, h4, sqrt_four]

/- ### Claim theorems -/

/-- C1: root selection in `register_incoming` follows the exact decision table
per ray: a negative discriminant is a miss recorded as `t = +infinity` (the
`.miss` sentinel); otherwise both roots `(-B ± √disc)/(2A)` are computed, and
if both are `≤ 0` the result is the miss sentinel, if exactly one is `> 0`
that root is selected, if both are `> 0` the smaller (nearer) root is
selected, and the tangent case `disc = 0` is a valid hit, not a miss. -/
theorem root_selection_decision_table (c : Vec3) (rad : ℝ) (inB : Vec3 → Bool)
    (v d : Vec3) (hA : 0 < quadA d) :
    (disc c rad v d < 0 → intersectRay c rad inB v d = .miss) ∧
    (0 ≤ disc c rad v d → hit0 c rad v d ≤ 0 → hit1 c rad v d ≤ 0 →
      intersectRay c rad inB v d = .miss) ∧
    (0 ≤ disc c rad v d → hit0 c rad v d ≤ 0 → 0 < hit1 c rad v d →
      selT c rad v d = hit1 c rad v d) ∧
    (0 ≤ disc c rad v d → 0 < hit0 c rad v d → hit1 c rad v d ≤ 0 →
      selT c rad v d = hit0 c rad v d) ∧
    (0 ≤ disc c rad v d → 0 < hit0 c rad v d → 0 < hit1 c rad v d →
      selT c rad v d = min (hit0 c rad v d) (hit1 c rad v d)) ∧
    (disc c rad v d = 0 → 0 < hit0 c rad v d →
      inB (selPoint c rad v d) = true → intersectRay c rad inB v d ≠ .miss) := by
  refine ⟨?_, ?_, ?_, ?_, ?_, ?_⟩
  · intro h
    rw [intersectRay, if_pos h]
  · intro hδ h0 h1
    rw [intersectRay, if_neg (not_lt.mpr hδ), if_pos ⟨h0, h1⟩]
  · intro hδ h0 h1
    rw [selT, if_neg (fun hc => absurd hc.1 (not_lt.mpr h0)),
      if_neg (not_lt.mpr h0)]
  · intro hδ h0 h1
    exact absurd (h0.trans_le (hit0_le_hit1 c rad v d hA)) (not_lt.mpr h1)
  · intro hδ h0 h1
    rw [selT, if_pos ⟨h0, h1⟩, min_def]
  · intro hδ h0 hB
    rw [intersectRay, if_neg (by rw [hδ]; norm_num),
      if_neg (fun hc => absurd h0 (not_lt.mpr hc.1)), if_pos hB]
    simp

/-- Witness for C1 at scenario 1 (unit sphere at origin, ray from `(0,0,5)`
with direction `(0,0,-1)`, all-accepting boundary). -/
theorem root_selection_decision_table_witness :
    0 < quadA (⟨0,0,-1⟩ : Vec3) ∧
    ((disc ⟨0,0,0⟩ 1 ⟨0,0,5⟩ ⟨0,0,-1⟩ < 0 →
      intersectRay ⟨0,0,0⟩ 1 (fun _ => true) ⟨0,0,5⟩ ⟨0,0,-1⟩ = .miss) ∧
    (0 ≤ disc ⟨0,0,0⟩ 1 ⟨0,0,5⟩ ⟨0,0,-1⟩ → hit0 ⟨0,0,0⟩ 1 ⟨0,0,5⟩ ⟨0,0,-1⟩ ≤ 0 →
      hit1 ⟨0,0,0⟩ 1 ⟨0,0,5⟩ ⟨0,0,-1⟩ ≤ 0 →
      intersectRay ⟨0,0,0⟩ 1 (fun _ => true) ⟨0,0,5⟩ ⟨0,0,-1⟩ = .miss) ∧
    (0 ≤ disc ⟨0,0,0⟩ 1 ⟨0,0,5⟩ ⟨0,0,-1⟩ → hit0 ⟨0,0,0⟩ 1 ⟨0,0,5⟩ ⟨0,0,-1⟩ ≤ 0 →
      0 < hit1 ⟨0,0,0⟩ 1 ⟨0,0,5⟩ ⟨0,0,-1⟩ →
      selT ⟨0,0,0⟩ 1 ⟨0,0,5⟩ ⟨0,0,-1⟩ = hit1 ⟨0,0,0⟩ 1 ⟨0,0,5⟩ ⟨0,0,-1⟩) ∧
    (0 ≤ disc ⟨0,0,0⟩ 1 ⟨0,0,5⟩ ⟨0,0,-1⟩ → 0 < hit0 ⟨0,0,0⟩ 1 ⟨0,0,5⟩ ⟨0,0,-1⟩ →
      hit1 ⟨0,0,0⟩ 1 ⟨0,0,5⟩ ⟨0,0,-1⟩ ≤ 0 →
      selT ⟨0,0,0⟩ 1 ⟨0,0,5⟩ ⟨0,0,-1⟩ = hit0 ⟨0,0,0⟩ 1 ⟨0,0,5⟩ ⟨0,0,-1⟩) ∧
    (0 ≤ disc ⟨0,0,0⟩ 1 ⟨0,0,5⟩ ⟨0,0,-1⟩ → 0 < hit0 ⟨0,0,0⟩ 1 ⟨0,0,5⟩ ⟨0,0,-1⟩ →
      0 < hit1 ⟨0,0,0⟩ 1 ⟨0,0,5⟩ ⟨0,0,-1⟩ →
      selT ⟨0,0,0⟩ 1 ⟨0,0,5⟩ ⟨0,0,-1⟩ =
        min (hit0 ⟨0,0,0⟩ 1 ⟨0,0,5⟩ ⟨0,0,-1⟩) (hit1 ⟨0,0,0⟩ 1 ⟨0,0,5⟩ ⟨0,0,-1⟩)) ∧
    (disc ⟨0,0,0⟩ 1 ⟨0,0,5⟩ ⟨0,0,-1⟩ = 0 → 0 < hit0 ⟨0,0,0⟩ 1 ⟨0,0,5⟩ ⟨0,0,-1⟩ →
      (fun _ => true) (selPoint ⟨0,0,0⟩ 1 ⟨0,0,5⟩ ⟨0,0,-1⟩) = true →
      intersectRay ⟨0,0,0⟩ 1 (fun _ => true) ⟨0,0,5⟩ ⟨0,0,-1⟩ ≠ .miss)) :=
  ⟨by norm_num [quadA, dot3],
    root_selection_decision_table ⟨0,0,0⟩ 1 (fun _ => true) ⟨0,0,5⟩ ⟨0,0,-1⟩
      (by norm_num [quadA, dot3])⟩

/-- C2: for a hit recorded by `register_incoming` with hit point `p`, center
`c` and incoming direction `d`, the resolved normal is `(p - c)` when
`(c - p)·d ≤ 0` and `(c - p)` when `(c - p)·d > 0`. -/
theorem normal_sign_rule (c : Vec3) (rad : ℝ) (inB : Vec3 → Bool) (v d : Vec3)
    (t : ℝ) (p n : Vec3) (h : intersectRay c rad inB v d = .hit t p n) :
    n = if dot3 (c - p) d ≤ 0 then p - c else c - p := by
  obtain ⟨_, _, _, hp, hn, _⟩ := intersectRay_hit_elim c rad inB v d t p n h
  rw [hn, hp]
  rfl

/-- Witness for C2 at scenario 1. -/
theorem normal_sign_rule_witness :
    intersectRay ⟨0,0,0⟩ 1 (fun _ => true) ⟨0,0,5⟩ ⟨0,0,-1⟩ =
      .hit 4 ⟨0,0,1⟩ ⟨0,0,-1⟩ ∧
    (⟨0,0,-1⟩ : Vec3) =
      (if dot3 ((⟨0,0,0⟩ : Vec3) - ⟨0,0,1⟩) ⟨0,0,-1⟩ ≤ 0
        then (⟨0,0,1⟩ : Vec3) - ⟨0,0,0⟩ else (⟨0,0,0⟩ : Vec3) - ⟨0,0,1⟩) :=
  ⟨s1_eval, normal_sign_rule ⟨0,0,0⟩ 1 (fun _ => true) ⟨0,0,5⟩ ⟨0,0,-1⟩
    4 ⟨0,0,1⟩ ⟨0,0,-1⟩ s1_eval⟩

/-- C3: a geometrically valid intersection rejected by the boundary's
`in_bounds` test is recorded exactly like a true geometric miss — the `.miss`
sentinel (`t = +infinity`), with no usable cached hit point or normal. -/
theorem boundary_reject_is_miss (c : Vec3) (rad : ℝ) (inB : Vec3 → Bool)
    (v d : Vec3) (hδ : 0 ≤ disc c rad v d)
    (hroots : ¬(hit0 c rad v d ≤ 0 ∧ hit1 c rad v d ≤ 0))
    (hB : inB (selPoint c rad v d) = false) :
    intersectRay c rad inB v d = .miss ∧
    (intersectRay c rad inB v d).param = none ∧
    (intersectRay c rad inB v d).point = none ∧
    (intersectRay c rad inB v d).normal = none := by
  have hmiss : intersectRay c rad inB v d = .miss := by
    rw [intersectRay, if_neg (not_lt.mpr hδ), if_neg hroots, if_neg (by simp [hB])]
  exact ⟨hmiss, by rw [hmiss]; rfl, by rw [hmiss]; rfl, by rw [hmiss]; rfl⟩

/-- Witness for C3 at scenario 3 (the scenario-1 geometry with an
all-rejecting boundary). -/
theorem boundary_reject_is_miss_witness :
    (0 ≤ disc ⟨0,0,0⟩ 1 ⟨0,0,5⟩ ⟨0,0,-1⟩) ∧
    ¬(hit0 ⟨0,0,0⟩ 1 ⟨0,0,5⟩ ⟨0,0,-1⟩ ≤ 0 ∧
      hit1 ⟨0,0,0⟩ 1 ⟨0,0,5⟩ ⟨0,0,-1⟩ ≤ 0) ∧
    (intersectRay ⟨0,0,0⟩ 1 (fun _ => false) ⟨0,0,5⟩ ⟨0,0,-1⟩ = .miss ∧
      (intersectRay ⟨0,0,0⟩ 1 (fun _ => false) ⟨0,0,5⟩ ⟨0,0,-1⟩).param = none ∧
      (intersectRay ⟨0,0,0⟩ 1 (fun _ => false) ⟨0,0,5⟩ ⟨0,0,-1⟩).point = none ∧
      (intersectRay ⟨0,0,0⟩ 1 (fun _ => false) ⟨0,0,5⟩ ⟨0,0,-1⟩).normal = none) :=
  ⟨by rw [s1_disc]; norm_num,
    by rw [s1_hit0, s1_hit1]; norm_num,
    boundary_reject_is_miss ⟨0,0,0⟩ 1 (fun _ => false) ⟨0,0,5⟩ ⟨0,0,-1⟩
      (by rw [s1_disc]; norm_num)
      (by rw [s1_hit0, s1_hit1]; norm_num) rfl⟩

theorem selectCols_length (xs : List (Option Vec3)) (sel : List Bool)
    (h : sel.length = xs.length) :
    (selectCols xs sel).length = countTrue sel := by
  induction xs generalizing sel with
  | nil =>
    cases sel with
    | nil => rfl
    | cons b bs => simp at h
  | cons x xs ih =>
    cases sel with
    | nil => simp at h
    | cons b bs =>
      simp only [List.length_cons, Nat.succ.injEq] at h
      cases b <;>
        simp [selectCols, countTrue, List.zip_cons_cons, List.filterMap_cons,
          List.filter] <;>
        simpa [selectCols, countTrue] using ih bs h

/-- C4: for every selection mask (of the registered bundle's length), the
bundle returned by `get_outgoing` has ray count exactly twice the number of
true mask entries, and its vertex array is the selected cached hit columns
concatenated with themselves, so its first half equals its second half. -/
theorem get_outgoing_doubles (s : SphereSurface) (bundle : RayBundle)
    (res : List RayResult) (sel : List Bool) (hlen : sel.length = res.length) :
    (get_outgoing s bundle res sel).numRays = 2 * countTrue sel ∧
    (get_outgoing s bundle res sel).vertices =
      selectCols (res.map RayResult.point) sel ++
        selectCols (res.map RayResult.point) sel ∧
    (get_outgoing s bundle res sel).vertices.length = 2 * countTrue sel ∧
    (get_outgoing s bundle res sel).vertices.take (countTrue sel) =
      (get_outgoing s bundle res sel).vertices.drop (countTrue sel) := by
  have hlen' : sel.length = (res.map RayResult.point).length := by
    simpa using hlen
  have hsc : (selectCols (res.map RayResult.point) sel).length = countTrue sel :=
    selectCols_length _ _ hlen'
  have hv : (get_outgoing s bundle res sel).vertices =
      selectCols (res.map RayResult.point) sel ++
        selectCols (res.map RayResult.point) sel := rfl
  refine ⟨rfl, hv, ?_, ?_⟩
  · rw [hv]
    simp [hsc]
    ring
  · rw [hv, ← hsc, List.take_left, List.drop_left]

/-- Witness for C4: a one-ray cache with the mask `[true]`. -/
theorem get_outgoing_doubles_witness :
    ([true] : List Bool).length = [RayResult.hit 4 ⟨0,0,1⟩ ⟨0,0,-1⟩].length ∧
    ((get_outgoing ⟨⟨0,0,0⟩, 1, fun _ => true, 0, "none", 1⟩ ⟨[(⟨0,0,5⟩, ⟨0,0,-1⟩)]⟩
        [RayResult.hit 4 ⟨0,0,1⟩ ⟨0,0,-1⟩] [true]).numRays = 2 * countTrue [true] ∧
      (get_outgoing ⟨⟨0,0,0⟩, 1, fun _ => true, 0, "none", 1⟩ ⟨[(⟨0,0,5⟩, ⟨0,0,-1⟩)]⟩
        [RayResult.hit 4 ⟨0,0,1⟩ ⟨0,0,-1⟩] [true]).vertices =
        selectCols ([RayResult.hit 4 ⟨0,0,1⟩ ⟨0,0,-1⟩].map RayResult.point) [true] ++
          selectCols ([RayResult.hit 4 ⟨0,0,1⟩ ⟨0,0,-1⟩].map RayResult.point) [true] ∧
      (get_outgoing ⟨⟨0,0,0⟩, 1, fun _ => true, 0, "none", 1⟩ ⟨[(⟨0,0,5⟩, ⟨0,0,-1⟩)]⟩
        [RayResult.hit 4 ⟨0,0,1⟩ ⟨0,0,-1⟩] [true]).vertices.length =
        2 * countTrue [true] ∧
      (get_outgoing ⟨⟨0,0,0⟩, 1, fun _ => true, 0, "none", 1⟩ ⟨[(⟨0,0,5⟩, ⟨0,0,-1⟩)]⟩
        [RayResult.hit 4 ⟨0,0,1⟩ ⟨0,0,-1⟩] [true]).vertices.take (countTrue [true]) =
        (get_outgoing ⟨⟨0,0,0⟩, 1, fun _ => true, 0, "none", 1⟩ ⟨[(⟨0,0,5⟩, ⟨0,0,-1⟩)]⟩
          [RayResult.hit 4 ⟨0,0,1⟩ ⟨0,0,-1⟩] [true]).vertices.drop (countTrue [true])) :=
  ⟨rfl, get_outgoing_doubles ⟨⟨0,0,0⟩, 1, fun _ => true, 0, "none", 1⟩
    ⟨[(⟨0,0,5⟩, ⟨0,0,-1⟩)]⟩ [RayResult.hit 4 ⟨0,0,1⟩ ⟨0,0,-1⟩] [true] rfl⟩

/-- C5: the claim expects a `ValueError` on a non-positive radius; the source
line `raise ValuError("Radius must be positive")` misspells `ValueError`, so
evaluating the raise statement raises `NameError` for the undefined name
`ValuError` instead — at construction and at mutation alike. Every positive
radius is stored unchanged, and no input is silently clamped: the only two
outcomes are the `NameError` or storing the radius as given. -/
theorem set_radius_typo_nameError :
    set_radius 0 = Except.error (PyError.nameError "ValuError") ∧
    mkSphereSurface ⟨0,0,0⟩ 0 "none" 1 0 (fun _ => true) =
      Except.error (PyError.nameError "ValuError") ∧
    set_radius 1 = Except.ok 1 ∧
    (∀ rad : ℝ, set_radius rad = Except.error (PyError.nameError "ValuError") ∨
      set_radius rad = Except.ok rad) := by
  refine ⟨?_, ?_, ?_, ?_⟩
  · rw [set_radius, if_pos le_rfl]
  · rw [mkSphereSurface, set_radius, if_pos le_rfl]
  · rw [set_radius, if_neg (by norm_num)]
  · intro rad
    rw [set_radius]
    split_ifs
    · exact Or.inl rfl
    · exact Or.inr rfl

/-- C6 counterexample: for a sphere of radius 2 the ray from `(0,0,5)` with
direction `(0,0,-1)` is a valid hit whose cached normal is `(0,0,-2)`, of
Euclidean norm 2 — not unit length: `register_incoming` never normalizes. -/
theorem cached_normal_not_unit :
    (intersectRay ⟨0,0,0⟩ 2 (fun _ => true) ⟨0,0,5⟩ ⟨0,0,-1⟩).normal =
      some ⟨0,0,-2⟩ ∧ norm3 ⟨0,0,-2⟩ ≠ 1 := by
  constructor
  · rw [s2_eval]
    rfl
  · rw [norm3_002]
    norm_num

/-- C6 amended: every normal cached by `register_incoming` for a valid hit has
Euclidean norm equal to the sphere's radius (the vector is `±(p - c)` for a
point `p` on the sphere, left unnormalized), hence is unit length exactly for
the unit sphere. -/
theorem cached_normal_norm_eq_radius (c : Vec3) (rad : ℝ) (inB : Vec3 → Bool)
    (v d : Vec3) (t : ℝ) (p n : Vec3) (hA : quadA d ≠ 0) (hrad : 0 ≤ rad)
    (h : intersectRay c rad inB v d = .hit t p n) : norm3 n = rad := by
  obtain ⟨hδ, _, _, _, hn, _⟩ := intersectRay_hit_elim c rad inB v d t p n h
  have hsq : dot3 (selPoint c rad v d - c) (selPoint c rad v d - c) = rad ^ 2 :=
    normSq_selPoint c rad v d hA hδ
  rw [hn, selNormal, norm3]
  split_ifs
  · rw [hsq, Real.sqrt_sq hrad]
  · have hswap : dot3 (c - selPoint c rad v d) (c - selPoint c rad v d) =
        dot3 (selPoint c rad v d - c) (selPoint c rad v d - c) := by
      simp only [dot3, Vec3.sub_def]
      ring
    rw [hswap, hsq, Real.sqrt_sq hrad]

/-- Witness for the amended C6 at scenario 2 (radius 2: the cached normal has
norm 2). -/
theorem cached_normal_norm_eq_radius_witness :
    quadA (⟨0,0,-1⟩ : Vec3) ≠ 0 ∧ (0:ℝ) ≤ 2 ∧
    intersectRay ⟨0,0,0⟩ 2 (fun _ => true) ⟨0,0,5⟩ ⟨0,0,-1⟩ =
      .hit 3 ⟨0,0,2⟩ ⟨0,0,-2⟩ ∧
    norm3 ⟨0,0,-2⟩ = 2 :=
  ⟨by norm_num [quadA, dot3], by norm_num, s2_eval,
    cached_normal_norm_eq_radius ⟨0,0,0⟩ 2 (fun _ => true) ⟨0,0,5⟩ ⟨0,0,-1⟩
      3 ⟨0,0,2⟩ ⟨0,0,-2⟩ (by norm_num [quadA, dot3]) (by norm_num) s2_eval⟩

theorem s1_register :
    register_incoming ⟨⟨0,0,0⟩, 1, fun _ => true, 0, "none", 1⟩
      ⟨[(⟨0,0,5⟩, ⟨0,0,-1⟩)]⟩ = [RayResult.hit 4 ⟨0,0,1⟩ ⟨0,0,-1⟩] := by
  rw [register_incoming]
  simp only [List.map_cons, List.map_nil]
  rw [s1_eval]

/-- C7 counterexample: for the unit sphere at the origin and the ray from
`(0,0,5)` with direction `(0,0,-1)` (boundary accepting), the cached normal is
`(0,0,-1)`, not the claimed `(0,0,1)`: at the hit point `(0,0,1)` the code
computes `dot = (c - p)·d = 1 > 0` and takes the `c - p` branch. -/
theorem scenario_normal_flipped :
    (register_incoming ⟨⟨0,0,0⟩, 1, fun _ => true, 0, "none", 1⟩
      ⟨[(⟨0,0,5⟩, ⟨0,0,-1⟩)]⟩).map RayResult.normal = [some ⟨0,0,-1⟩] ∧
    some (⟨0,0,-1⟩ : Vec3) ≠ some (⟨0,0,1⟩ : Vec3) := by
  constructor
  · rw [s1_register]
    rfl
  · simp only [Option.some.injEq, Vec3.mk.injEq, ne_eq]
    norm_num

/-- C7 amended: for the unit sphere at the origin and the single ray from
`(0,0,5)` with direction `(0,0,-1)`, with the hit accepted by the boundary,
`register_incoming` returns `t = 4` and caches hit point `(0,0,1)` and normal
`(0,0,-1)`. -/
theorem scenario_register_values :
    (register_incoming ⟨⟨0,0,0⟩, 1, fun _ => true, 0, "none", 1⟩
      ⟨[(⟨0,0,5⟩, ⟨0,0,-1⟩)]⟩).map RayResult.param = [some 4] ∧
    (register_incoming ⟨⟨0,0,0⟩, 1, fun _ => true, 0, "none", 1⟩
      ⟨[(⟨0,0,5⟩, ⟨0,0,-1⟩)]⟩).map RayResult.point = [some ⟨0,0,1⟩] ∧
    (register_incoming ⟨⟨0,0,0⟩, 1, fun _ => true, 0, "none", 1⟩
      ⟨[(⟨0,0,5⟩, ⟨0,0,-1⟩)]⟩).map RayResult.normal = [some ⟨0,0,-1⟩] := by
  rw [s1_register]
  exact ⟨rfl, rfl, rfl⟩

/-- C8 counterexample: the ray from `(0,0,5)` (outside the unit sphere, since
`‖origin - center‖² = 25 > 1`) with direction `(0,0,-1)` hits at `(0,0,1)`
with resolved normal `(0,0,-1)`, and `normal · (origin - hitpoint) = -4` is
not `> 0`. -/
theorem normal_toward_origin_cex :
    1 ^ 2 < dot3 ((⟨0,0,5⟩ : Vec3) - ⟨0,0,0⟩) ((⟨0,0,5⟩ : Vec3) - ⟨0,0,0⟩) ∧
    intersectRay ⟨0,0,0⟩ 1 (fun _ => true) ⟨0,0,5⟩ ⟨0,0,-1⟩ =
      .hit 4 ⟨0,0,1⟩ ⟨0,0,-1⟩ ∧
    ¬ 0 < dot3 ⟨0,0,-1⟩ ((⟨0,0,5⟩ : Vec3) - ⟨0,0,1⟩) := by
  refine ⟨?_, s1_eval, ?_⟩
  · norm_num [dot3, Vec3.sub_def]
  · norm_num [dot3, Vec3.sub_def]

/-- C8 amended: for every outside-origin ray hitting the sphere, the resolved
normal satisfies `normal · (origin - hitpoint) ≤ 0` — it points away from the
side the ray came from — strictly so whenever the discriminant is nonzero
(non-grazing hits). -/
theorem normal_points_away_amended (c : Vec3) (rad : ℝ) (inB : Vec3 → Bool)
    (v d : Vec3) (t : ℝ) (p n : Vec3) (hA : quadA d ≠ 0)
    (hout : rad ^ 2 < dot3 (v - c) (v - c))
    (h : intersectRay c rad inB v d = .hit t p n) :
    dot3 n (v - p) ≤ 0 ∧ (disc c rad v d ≠ 0 → dot3 n (v - p) < 0) := by
  obtain ⟨hδ, hroots, _, hp, hn, _⟩ := intersectRay_hit_elim c rad inB v d t p n h
  have htpos : 0 < selT c rad v d := selT_pos c rad v d hroots
  have hkey : ∀ X : Vec3, dot3 X (v - selPoint c rad v d) =
      -(selT c rad v d * dot3 X d) := by
    intro X
    simp only [selPoint, dot3, Vec3.sub_def, Vec3.add_def, Vec3.smul_def]
    ring
  have hd1 : dot3 (selPoint c rad v d - c) d = -(selDot c rad v d) := by
    simp only [selDot, dot3, Vec3.sub_def]
    ring
  have hd2 : dot3 (c - selPoint c rad v d) d = selDot c rad v d := rfl
  rw [hn, hp, selNormal]
  split_ifs with hdot
  · rw [hkey, hd1]
    constructor
    · nlinarith [mul_le_mul_of_nonneg_left hdot htpos.le]
    · intro hne
      have hpos : 0 < Real.sqrt (disc c rad v d) :=
        Real.sqrt_pos.mpr (lt_of_le_of_ne hδ (Ne.symm hne))
      rcases selDot_eq_sqrt_disc c rad v d hA with hcase | hcase
      · rw [hcase] at hdot
        linarith
      · rw [hcase]
        rw [hcase] at hdot
        nlinarith [mul_pos htpos hpos]
  · push_neg at hdot
    rw [hkey, hd2]
    constructor
    · nlinarith [mul_pos htpos hdot]
    · intro _
      nlinarith [mul_pos htpos hdot]

/-- Witness for the amended C8 at scenario 1: the outside-origin value is
`normal · (origin - hitpoint) = -4 < 0`. -/
theorem normal_points_away_amended_witness :
    quadA (⟨0,0,-1⟩ : Vec3) ≠ 0 ∧
    (1:ℝ) ^ 2 < dot3 ((⟨0,0,5⟩ : Vec3) - ⟨0,0,0⟩) ((⟨0,0,5⟩ : Vec3) - ⟨0,0,0⟩) ∧
    intersectRay ⟨0,0,0⟩ 1 (fun _ => true) ⟨0,0,5⟩ ⟨0,0,-1⟩ =
      .hit 4 ⟨0,0,1⟩ ⟨0,0,-1⟩ ∧
    (dot3 ⟨0,0,-1⟩ ((⟨0,0,5⟩ : Vec3) - ⟨0,0,1⟩) ≤ 0 ∧
      (disc ⟨0,0,0⟩ 1 ⟨0,0,5⟩ ⟨0,0,-1⟩ ≠ 0 →
        dot3 ⟨0,0,-1⟩ ((⟨0,0,5⟩ : Vec3) - ⟨0,0,1⟩) < 0)) :=
  ⟨by norm_num [quadA, dot3], by norm_num [dot3, Vec3.sub_def], s1_eval,
    normal_points_away_amended ⟨0,0,0⟩ 1 (fun _ => true) ⟨0,0,5⟩ ⟨0,0,-1⟩
      4 ⟨0,0,1⟩ ⟨0,0,-1⟩ (by norm_num [quadA, dot3])
      (by norm_num [dot3, Vec3.sub_def]) s1_eval⟩

/-- C9: `register_incoming` is idempotent and deterministic — calling it a
second time with the same bundle, on whatever the first call left behind,
yields the same overall outcome as the first call alone: on a successful
first call the second returns the identical `t` array and overwrites the
cache with the identical record set; on the empty-bundle `ValueError` the
exception propagates with the instance state unchanged, and a repeat raises
identically. -/
theorem register_incoming_idempotent (st : SurfaceState) (b : RayBundle) :
    (registerStep st b).bind (fun r => registerStep r.1 b) = registerStep st b := by
  by_cases h : (register_incoming st.surf b).isEmpty
  · have he : registerStep st b =
        .error (.valueError "need at least one array to concatenate") := by
      simp only [registerStep]
      rw [if_pos h]
    rw [he]
    rfl
  · have ho : registerStep st b =
        .ok (⟨st.surf, some (b, register_incoming st.surf b)⟩,
          (register_incoming st.surf b).map RayResult.param) := by
      simp only [registerStep]
      rw [if_neg h]
    rw [ho]
    show registerStep ⟨st.surf, some (b, register_incoming st.surf b)⟩ b = _
    simp only [registerStep]
    rw [if_neg h]

/-- C10 counterexample: for the empty bundle (N = 0) the loop collects
nothing and `N.hstack(vertices)` raises
`ValueError("need at least one array to concatenate")`, so the call returns
no parametric values at all and caches nothing — not the claimed zero-length
return and zero-column caches. -/
theorem register_empty_raises :
    registerStep ⟨⟨⟨0,0,0⟩, 1, fun _ => true, 0, "none", 1⟩, none⟩ ⟨[]⟩ =
      .error (.valueError "need at least one array to concatenate") := rfl

/-- C10 amended: for every non-empty input bundle of `N` rays the call
succeeds, returns exactly `N` parametric values, one per ray in bundle order,
and caches vertex and normal arrays of exactly `N` columns each (one column
per ray, whether hit or miss); for the empty bundle the call instead raises
`ValueError` at `N.hstack` and caches nothing. -/
theorem register_incoming_cache_lengths (s : SphereSurface) (b : RayBundle)
    (hne : b.rays ≠ []) :
    registerStep ⟨s, none⟩ b =
      .ok (⟨s, some (b, register_incoming s b)⟩,
        (register_incoming s b).map RayResult.param) ∧
    (register_incoming s b).length = b.numRays ∧
    ((register_incoming s b).map RayResult.point).length = b.numRays ∧
    ((register_incoming s b).map RayResult.normal).length = b.numRays ∧
    ((register_incoming s b).map RayResult.param).length = b.numRays ∧
    (∀ i : ℕ, (register_incoming s b)[i]? =
      (b.rays[i]?).map fun vd =>
        intersectRay s.center s.rad s.boundary vd.1 vd.2) := by
  have hres : ¬ (register_incoming s b).isEmpty := by
    simp [register_incoming, List.isEmpty_iff, hne]
  refine ⟨?_, ?_, ?_, ?_, ?_, fun i => ?_⟩
  · simp only [registerStep]
    rw [if_neg hres]
  · simp [register_incoming, RayBundle.numRays]
  · simp [register_incoming, RayBundle.numRays]
  · simp [register_incoming, RayBundle.numRays]
  · simp [register_incoming, RayBundle.numRays]
  · simp [register_incoming, List.getElem?_map]

/-- Witness for the amended C10: the one-ray scenario-1 bundle. -/
theorem register_incoming_cache_lengths_witness :
    ((⟨[(⟨0,0,5⟩, ⟨0,0,-1⟩)]⟩ : RayBundle).rays ≠ []) ∧
    (registerStep ⟨⟨⟨0,0,0⟩, 1, fun _ => true, 0, "none", 1⟩, none⟩
        ⟨[(⟨0,0,5⟩, ⟨0,0,-1⟩)]⟩ =
      .ok (⟨⟨⟨0,0,0⟩, 1, fun _ => true, 0, "none", 1⟩,
          some (⟨[(⟨0,0,5⟩, ⟨0,0,-1⟩)]⟩,
            register_incoming ⟨⟨0,0,0⟩, 1, fun _ => true, 0, "none", 1⟩
              ⟨[(⟨0,0,5⟩, ⟨0,0,-1⟩)]⟩)⟩,
        (register_incoming ⟨⟨0,0,0⟩, 1, fun _ => true, 0, "none", 1⟩
          ⟨[(⟨0,0,5⟩, ⟨0,0,-1⟩)]⟩).map RayResult.param) ∧
    (register_incoming ⟨⟨0,0,0⟩, 1, fun _ => true, 0, "none", 1⟩
      ⟨[(⟨0,0,5⟩, ⟨0,0,-1⟩)]⟩).length =
      (⟨[(⟨0,0,5⟩, ⟨0,0,-1⟩)]⟩ : RayBundle).numRays ∧
    ((register_incoming ⟨⟨0,0,0⟩, 1, fun _ => true, 0, "none", 1⟩
      ⟨[(⟨0,0,5⟩, ⟨0,0,-1⟩)]⟩).map RayResult.point).length =
      (⟨[(⟨0,0,5⟩, ⟨0,0,-1⟩)]⟩ : RayBundle).numRays ∧
    ((register_incoming ⟨⟨0,0,0⟩, 1, fun _ => true, 0, "none", 1⟩
      ⟨[(⟨0,0,5⟩, ⟨0,0,-1⟩)]⟩).map RayResult.normal).length =
      (⟨[(⟨0,0,5⟩, ⟨0,0,-1⟩)]⟩ : RayBundle).numRays ∧
    ((register_incoming ⟨⟨0,0,0⟩, 1, fun _ => true, 0, "none", 1⟩
      ⟨[(⟨0,0,5⟩, ⟨0,0,-1⟩)]⟩).map RayResult.param).length =
      (⟨[(⟨0,0,5⟩, ⟨0,0,-1⟩)]⟩ : RayBundle).numRays ∧
    (∀ i : ℕ, (register_incoming ⟨⟨0,0,0⟩, 1, fun _ => true, 0, "none", 1⟩
        ⟨[(⟨0,0,5⟩, ⟨0,0,-1⟩)]⟩)[i]? =
      ((⟨[(⟨0,0,5⟩, ⟨0,0,-1⟩)]⟩ : RayBundle).rays[i]?).map fun vd =>
        intersectRay ⟨0,0,0⟩ 1 (fun _ => true) vd.1 vd.2)) :=
  ⟨List.cons_ne_nil _ _,
    register_incoming_cache_lengths ⟨⟨0,0,0⟩, 1, fun _ => true, 0, "none", 1⟩
      ⟨[(⟨0,0,5⟩, ⟨0,0,-1⟩)]⟩ (List.cons_ne_nil _ _)⟩

end Tracer
